import Mathlib

/-!
Shallow embedding of the glacierPy core (src/src/glacierPy/lib.py, with the
legacy variant src/glacierPyInquirer_lib.py where a claim cites it).

Effectful Python functions are modelled as pure Lean functions from their
inputs plus an oracle of service responses to a trace of observable events
(service calls, sleeps, progress updates, log records) together with the
value or exception the Python caller would observe.
-/

namespace GlacierPy

/-- Archive record of the inventory JSON body; lib.py consumes only the
ArchiveId field. -/
structure Archive where
  archiveId : String
deriving DecidableEq, Repr

/-- Projection of a Glacier job record onto the fields lib.py reads. -/
structure MJob where
  jobId : String
  action : String
  completed : Bool
  statusCode : String
deriving DecidableEq, Repr

/-- A job record tagged with its owning vault name, as built by
monitor_jobs via a dict merge. -/
structure TaggedJob where
  vault : String
  job : MJob
deriving DecidableEq, Repr

/-- Generic service failure payload (botocore ClientError). -/
structure GlacierError where
  msg : String
deriving DecidableEq, Repr

/-- Constant JOB_ACTION_INVENTORY_RETRIEVAL of lib.py. -/
def JOB_ACTION_INVENTORY_RETRIEVAL : String := "InventoryRetrieval"

/-- Constant JOB_STATUS_SUCCEEDED of lib.py. -/
def JOB_STATUS_SUCCEEDED : String := "Succeeded"

/-- Observable events of a run: service calls, sleeps, progress updates
and log records. -/
inductive Ev
  | describeCall
  | sleepCall (seconds : Nat)
  | logError
  | logWarning
  | deleteInventoryCall
  | getJobsCall
  | deleteVaultCall
  | deleteArchiveCall (archiveId : String)
  | progressUpdate
deriving DecidableEq, Repr

/-- Whether an event is a describe_job service call. -/
def isDescribe : Ev → Bool
  | Ev.describeCall => true
  | _ => false

/-- Whether an event is a time.sleep suspension. -/
def isSleep : Ev → Bool
  | Ev.sleepCall _ => true
  | _ => false

/-- Whether an event is a progress.update(1) report. -/
def isProgress : Ev → Bool
  | Ev.progressUpdate => true
  | _ => false

/-- Whether an event is a delete_archive service call. -/
def isDeleteArchiveCall : Ev → Bool
  | Ev.deleteArchiveCall _ => true
  | _ => false

/-- Whether an event is a logger.error record. -/
def isLogError : Ev → Bool
  | Ev.logError => true
  | _ => false

/-- Whether an event is the delete_inventory invocation. -/
def isDeleteInventory : Ev → Bool
  | Ev.deleteInventoryCall => true
  | _ => false

/-- Whether an event is any call on the remote vault service. -/
def isServiceCall : Ev → Bool
  | Ev.describeCall => true
  | Ev.getJobsCall => true
  | Ev.deleteVaultCall => true
  | Ev.deleteArchiveCall _ => true
  | _ => false

/-- Number of events in a trace satisfying a predicate. -/
def countEv (p : Ev → Bool) (evs : List Ev) : Nat :=
  (evs.filter p).length

/-- Total seconds spent in sleepCall events of a trace. -/
def sleepSeconds : List Ev → Nat
  | [] => 0
  | Ev.sleepCall s :: r => s + sleepSeconds r
  | _ :: r => sleepSeconds r

/-! ### delete_inventory (lib.py lines 191-223)

After get_job_output, one delete_archive task per archive is submitted to a
thread pool; the as_completed loop then, for each finished future in
completion order, catches any exception (logger.error) and performs one
progress.update(1). The oracle `fails` tells which archive deletions raise,
and `completion` is the as_completed order, a permutation of the archives. -/

/-- One iteration of the as_completed loop of delete_inventory: the
future.result call raises iff the archive's deletion failed; the except
branch logs; progress.update(1) runs either way. -/
def process_future (fails : String → Bool) (aid : String) : List Ev :=
  if fails aid then [Ev.logError, Ev.progressUpdate] else [Ev.progressUpdate]

/-- Trace of the deletion phase of delete_inventory: one delete_archive
call per submitted archive, then the as_completed loop over the futures in
completion order. -/
def delete_inventory_body (archive_list : List Archive) (completion : List String)
    (fails : String → Bool) : List Ev :=
  archive_list.map (fun a => Ev.deleteArchiveCall a.archiveId)
    ++ completion.flatMap (process_future fails)

/-- Full delete_inventory: the get_job_output step re-raises a ClientError
after logging; otherwise the deletion phase runs and the function returns
normally (the as_completed loop catches every per-future exception). -/
def delete_inventory_run (jobOutput : Except GlacierError (List Archive))
    (completion : List String) (fails : String → Bool) :
    List Ev × Except GlacierError Unit :=
  match jobOutput with
  | Except.error e => ([Ev.logError], Except.error e)
  | Except.ok archive_list =>
      (delete_inventory_body archive_list completion fails, Except.ok ())

/-! ### wait_for_job (lib.py lines 248-282) -/

/-- Outcome of one describe_job call: a returned StatusCode, or a raised
ClientError. -/
inductive DescribeResult
  | status (s : String)
  | clientError
deriving DecidableEq, Repr

/-- How the polling while-loop of wait_for_job was left. -/
inductive LoopExit
  | statusExit (s : String)
  | errorExit
  | diverged
deriving DecidableEq, Repr

/-- The polling loop of wait_for_job over a finite sequence of describe_job
outcomes: a non-InProgress status breaks out immediately; an InProgress
status sleeps 60 seconds and re-polls; a ClientError is logged and breaks
out. An exhausted oracle, while still InProgress, marks a run that would
keep polling (diverged). -/
def wait_loop : List DescribeResult → List Ev × LoopExit
  | [] => ([], LoopExit.diverged)
  | DescribeResult.clientError :: _ =>
      ([Ev.describeCall, Ev.logError], LoopExit.errorExit)
  | DescribeResult.status s :: rest =>
      if s = "InProgress" then
        let r := wait_loop rest
        (Ev.describeCall :: Ev.sleepCall 60 :: r.1, r.2)
      else ([Ev.describeCall], LoopExit.statusExit s)

/-- What the Python caller of wait_for_job observes: a normal return, a
propagated exception (only delete_inventory on the success path can
raise), or a run that never leaves the polling loop. -/
inductive WaitResult
  | done (r : Except GlacierError Unit)
  | diverged
deriving Repr

/-- wait_for_job: returns at once on a None job id; otherwise runs the
polling loop, and afterwards calls delete_inventory exactly when the final
job status equals JOB_STATUS_SUCCEEDED. -/
def wait_for_job_run (job_id : Option String) (describes : List DescribeResult)
    (jobOutput : Except GlacierError (List Archive)) (completion : List String)
    (fails : String → Bool) : List Ev × WaitResult :=
  match job_id with
  | none => ([], WaitResult.done (Except.ok ()))
  | some _ =>
      let l := wait_loop describes
      match l.2 with
      | LoopExit.statusExit s =>
          if s = JOB_STATUS_SUCCEEDED then
            let d := delete_inventory_run jobOutput completion fails
            (l.1 ++ Ev.deleteInventoryCall :: d.1, WaitResult.done d.2)
          else (l.1, WaitResult.done (Except.ok ()))
      | LoopExit.errorExit => (l.1, WaitResult.done (Except.ok ()))
      | LoopExit.diverged => (l.1, WaitResult.diverged)

/-! ### monitor_jobs (lib.py lines 90-146) -/

/-- The per-round snapshot of monitor_jobs: across all vaults, in service
order, every job whose Action is InventoryRetrieval and that is not
Completed, tagged with its vault name. -/
def incomplete_inventory_jobs (vaults : List (String × List MJob)) : List TaggedJob :=
  vaults.flatMap fun v =>
    (v.2.filter fun j =>
        j.action == JOB_ACTION_INVENTORY_RETRIEVAL && !j.completed).map
      fun j => { vault := v.1, job := j }

/-- jobs_last after the initial check of monitor_jobs: None when no vault
contributed an incomplete inventory job, otherwise the concatenated list. -/
def initial_jobs_last (initial : List (String × List MJob)) :
    Option (List TaggedJob) :=
  let l := incomplete_inventory_jobs initial
  if l.isEmpty then none else some l

/-- How monitor_jobs finished: the very first snapshot was empty, a later
snapshot differed from its predecessor, or the observation oracle ran out
while every snapshot was still equal (the loop would keep polling). -/
inductive MonExit
  | emptyStart
  | changed (final : List TaggedJob)
  | exhausted (last : List TaggedJob)
deriving DecidableEq, Repr

/-- The polling loop of monitor_jobs: each round rebuilds the snapshot and
compares it to jobs_last with Python list equality (order-sensitive,
field-by-field); on equality it sleeps and re-polls, on inequality it
terminates with the new snapshot. Returns the iteration count and exit. -/
def monitor_loop (jobs_last : List TaggedJob) :
    List (List (String × List MJob)) → Nat × MonExit
  | [] => (0, MonExit.exhausted jobs_last)
  | r :: rest =>
      let jobs_now := incomplete_inventory_jobs r
      if jobs_now = jobs_last then
        let t := monitor_loop jobs_now rest
        (t.1 + 1, t.2)
      else (1, MonExit.changed jobs_now)

/-- monitor_jobs: the initial check either leaves jobs_last as None — the
loop then exits before its first iteration — or seeds it with the first
snapshot and enters the loop. -/
def monitor_jobs_run (initial : List (String × List MJob))
    (rounds : List (List (String × List MJob))) : Nat × MonExit :=
  match initial_jobs_last initial with
  | none => (0, MonExit.emptyStart)
  | some l => monitor_loop l rounds

/-! ### delete_vault (lib.py lines 285-320) -/

/-- Failure of the delete_vault service call: the classified
InvalidParameterValueException, or any other ClientError. -/
inductive DeleteVaultError
  | invalidParameterValue
  | clientError (msg : String)
deriving DecidableEq, Repr

/-- The job-id selection loop of delete_vault (lines 296-300): scan the
JobList in service order for the first incomplete inventory-retrieval job
and break. -/
def find_first_incomplete_inventory (jobs : List MJob) : Option MJob :=
  jobs.find? fun j => j.action == JOB_ACTION_INVENTORY_RETRIEVAL && !j.completed

/-- The terminal step of delete_vault (lines 306-320): issue the
delete_vault call; on InvalidParameterValueException log a warning and
return normally; on any other ClientError log an error and re-raise. -/
def delete_vault_finish (delResult : Option DeleteVaultError) :
    List Ev × Except DeleteVaultError Unit :=
  match delResult with
  | none => ([Ev.deleteVaultCall], Except.ok ())
  | some DeleteVaultError.invalidParameterValue =>
      ([Ev.deleteVaultCall, Ev.logWarning], Except.ok ())
  | some (DeleteVaultError.clientError m) =>
      ([Ev.deleteVaultCall, Ev.logError],
        Except.error (DeleteVaultError.clientError m))

/-- What the Python caller of delete_vault observes. -/
inductive VaultResult
  | done (r : Except DeleteVaultError Unit)
  | diverged
deriving Repr

/-- delete_vault: the advisory try-block (get_jobs, job-id scan,
wait_for_job) has any exception caught and logged as a warning; the
terminal delete call then runs via delete_vault_finish. `jobsResult` is
the get_jobs outcome (Option models a missing or absent JobList). -/
def delete_vault_run (jobsResult : Except GlacierError (Option (List MJob)))
    (describes : List DescribeResult)
    (jobOutput : Except GlacierError (List Archive)) (completion : List String)
    (fails : String → Bool) (delResult : Option DeleteVaultError) :
    List Ev × VaultResult :=
  match jobsResult with
  | Except.error _ =>
      let f := delete_vault_finish delResult
      (Ev.getJobsCall :: Ev.logWarning :: f.1, VaultResult.done f.2)
  | Except.ok jobs =>
      let job_id := (find_first_incomplete_inventory (jobs.getD [])).map
        fun j => j.jobId
      let w := wait_for_job_run job_id describes jobOutput completion fails
      match w.2 with
      | WaitResult.done (Except.ok _) =>
          let f := delete_vault_finish delResult
          (Ev.getJobsCall :: w.1 ++ f.1, VaultResult.done f.2)
      | WaitResult.done (Except.error _) =>
          let f := delete_vault_finish delResult
          (Ev.getJobsCall :: (w.1 ++ Ev.logWarning :: f.1), VaultResult.done f.2)
      | WaitResult.diverged => (Ev.getJobsCall :: w.1, VaultResult.diverged)

/-! ### Thread-pool bounds of the two delete_inventory variants -/

/-- The worker cap of the executor lib.py constructs with no argument:
the documented default max_workers, min(32, cpu_count + 4). -/
def default_max_workers (cpu_count : Nat) : Nat :=
  min 32 (cpu_count + 4)

/-- The worker cap passed explicitly in glacierPyInquirer_lib.py:
multiprocessing.cpu_count(). -/
def inquirer_max_workers (cpu_count : Nat) : Nat :=
  cpu_count

/-- A thread pool spawns at most one worker thread per submitted task,
capped at its max_workers, so concurrent deletions are bounded by the
smaller of the two. -/
def pool_thread_bound (max_workers tasks : Nat) : Nat :=
  min max_workers tasks

/-! ### Helper lemmas -/

/-- Counting distributes over trace concatenation. -/
theorem countEv_append (p : Ev → Bool) (l₁ l₂ : List Ev) :
    countEv p (l₁ ++ l₂) = countEv p l₁ + countEv p l₂ := by
  simp [countEv, List.filter_append]

/-- The submission phase emits one delete_archive call per archive. -/
theorem countEv_map_deleteArchive (l : List Archive) :
    countEv isDeleteArchiveCall (l.map fun a => Ev.deleteArchiveCall a.archiveId)
      = l.length := by
  induction l with
  | nil => rfl
  | cons a t ih => simpa [countEv, List.filter_cons, isDeleteArchiveCall] using ih

/-- The submission phase emits no progress updates. -/
theorem countEv_map_progress_zero (l : List Archive) :
    countEv isProgress (l.map fun a => Ev.deleteArchiveCall a.archiveId) = 0 := by
  induction l with
  | nil => rfl
  | cons a t ih => simp [countEv, List.filter_cons, isProgress, ih]

/-- The submission phase emits no error logs. -/
theorem countEv_map_logError_zero (l : List Archive) :
    countEv isLogError (l.map fun a => Ev.deleteArchiveCall a.archiveId) = 0 := by
  induction l with
  | nil => rfl
  | cons a t ih => simp [countEv, List.filter_cons, isLogError, ih]

/-- The as_completed loop emits exactly one progress update per future. -/
theorem countEv_flatMap_progress (c : List String) (fails : String → Bool) :
    countEv isProgress (c.flatMap (process_future fails)) = c.length := by
  induction c with
  | nil => rfl
  | cons a t ih =>
    rw [List.flatMap_cons, countEv_append, ih]
    by_cases h : fails a <;>
      simp [process_future, h, countEv, List.filter_cons, isProgress] <;> omega

/-- The as_completed loop issues no delete_archive calls. -/
theorem countEv_flatMap_deleteArchive_zero (c : List String) (fails : String → Bool) :
    countEv isDeleteArchiveCall (c.flatMap (process_future fails)) = 0 := by
  induction c with
  | nil => rfl
  | cons a t ih =>
    rw [List.flatMap_cons, countEv_append, ih]
    by_cases h : fails a <;>
      simp [process_future, h, countEv, List.filter_cons, isDeleteArchiveCall]

/-- The as_completed loop logs exactly one error per failed future. -/
theorem countEv_flatMap_logError (c : List String) (fails : String → Bool) :
    countEv isLogError (c.flatMap (process_future fails))
      = (c.filter fails).length := by
  induction c with
  | nil => rfl
  | cons a t ih =>
    rw [List.flatMap_cons, countEv_append, ih]
    by_cases h : fails a
    · simp [process_future, h, countEv, List.filter_cons, isLogError]
      omega
    · simp [process_future, h, countEv, List.filter_cons, isLogError]

/-- Successes and failures of the as_completed loop partition the futures. -/
theorem filter_not_add_filter (c : List String) (f : String → Bool) :
    (c.filter fun a => !(f a)).length + (c.filter f).length = c.length := by
  induction c with
  | nil => rfl
  | cons a t ih => by_cases h : f a <;> simp [List.filter_cons, h] <;> omega

/-- The polling loop of wait_for_job never calls delete_inventory itself. -/
theorem wait_loop_no_delete (ds : List DescribeResult) :
    Ev.deleteInventoryCall ∉ (wait_loop ds).1 := by
  induction ds with
  | nil => simp [wait_loop]
  | cons d t ih =>
    cases d with
    | clientError => simp [wait_loop]
    | status s =>
      by_cases h : s = "InProgress"
      · simpa [wait_loop, h] using ih
      · simp [wait_loop, h]

/-- A polling loop that broke out of a ClientError logged that error. -/
theorem wait_loop_error_logged (ds : List DescribeResult)
    (h : (wait_loop ds).2 = LoopExit.errorExit) :
    Ev.logError ∈ (wait_loop ds).1 := by
  induction ds with
  | nil => simp [wait_loop] at h
  | cons d t ih =>
    cases d with
    | clientError => simp [wait_loop]
    | status s =>
      by_cases hs : s = "InProgress"
      · have h2 : (wait_loop t).2 = LoopExit.errorExit := by
          simpa [wait_loop, hs] using h
        have h3 := ih h2
        simp [wait_loop, hs, h3]
      · simp [wait_loop, hs] at h

/-- The terminal step of delete_vault always issues the delete-vault call. -/
theorem deleteVaultCall_mem_finish (delResult : Option DeleteVaultError) :
    Ev.deleteVaultCall ∈ (delete_vault_finish delResult).1 := by
  cases delResult with
  | none => simp [delete_vault_finish]
  | some e => cases e <;> simp [delete_vault_finish]

/-- Whenever the advisory job check cannot diverge, delete_vault reaches
its terminal step: the trace ends with the finish trace and the caller
observes exactly the finish outcome. -/
theorem delete_vault_run_reaches_finish
    (jobsResult : Except GlacierError (Option (List MJob)))
    (describes : List DescribeResult)
    (jobOutput : Except GlacierError (List Archive)) (completion : List String)
    (fails : String → Bool) (delResult : Option DeleteVaultError)
    (h : ∀ jobs, jobsResult = Except.ok jobs →
      (wait_for_job_run ((find_first_incomplete_inventory (jobs.getD [])).map
          fun j => j.jobId) describes jobOutput completion fails).2
        ≠ WaitResult.diverged) :
    ∃ t, (delete_vault_run jobsResult describes jobOutput completion fails
        delResult).1 = t ++ (delete_vault_finish delResult).1 ∧
      (delete_vault_run jobsResult describes jobOutput completion fails
        delResult).2 = VaultResult.done (delete_vault_finish delResult).2 := by
  cases jobsResult with
  | error e =>
    exact ⟨[Ev.getJobsCall, Ev.logWarning], rfl, rfl⟩
  | ok jobs =>
    have hw := h jobs rfl
    simp only [delete_vault_run]
    cases hres : (wait_for_job_run ((find_first_incomplete_inventory
        (jobs.getD [])).map fun j => j.jobId) describes jobOutput completion
        fails).2 with
    | done r =>
      cases r with
      | ok u =>
        refine ⟨Ev.getJobsCall :: (wait_for_job_run ((find_first_incomplete_inventory
          (jobs.getD [])).map fun j => j.jobId) describes jobOutput completion
          fails).1, ?_, ?_⟩ <;> simp [hres]
      | error err =>
        refine ⟨Ev.getJobsCall :: ((wait_for_job_run ((find_first_incomplete_inventory
          (jobs.getD [])).map fun j => j.jobId) describes jobOutput completion
          fails).1 ++ [Ev.logWarning]), ?_, ?_⟩ <;> simp [hres]
    | diverged => exact absurd hres hw

/-! ### Claim theorems -/

/-- C1 counterexample: delete_inventory returns None, not a summary: no
reading of the value it hands its caller can recover the failure count,
since the run in which the only archive's deletion fails (one logged
failure) returns exactly the same bare value as the run in which it
succeeds (no logged failure). -/
theorem delete_inventory_no_summary_cex :
    ¬ ∃ f : Except GlacierError Unit → Nat,
      ∀ (archive_list : List Archive) (completion : List String)
        (fails : String → Bool),
        List.Perm completion (archive_list.map fun a => a.archiveId) →
        f (delete_inventory_run (Except.ok archive_list) completion fails).2
          = countEv isLogError
              (delete_inventory_run (Except.ok archive_list) completion fails).1 := by
  rintro ⟨f, hf⟩
  have h1 := hf [⟨"a1"⟩] ["a1"] (fun _ => true) (by decide)
  have h0 := hf [⟨"a1"⟩] ["a1"] (fun _ => false) (by decide)
  exact absurd (h1.symm.trans h0) (by decide)

/-- C1 amended: for every archive list of length N obtained from the
inventory job output, delete_inventory issues exactly N per-archive delete
calls, reports progress exactly N times, and returns normally with no
value; the outcome counts are observable only in the run itself — the
logged per-archive failures plus the unlogged successful completions sum
to N — and for N = 0 the trace is empty (zero delete calls, nothing to
await) and the function returns at once. -/
theorem delete_inventory_calls_and_progress (archive_list : List Archive)
    (completion : List String) (fails : String → Bool)
    (h : List.Perm completion (archive_list.map fun a => a.archiveId)) :
    countEv isDeleteArchiveCall
        (delete_inventory_run (Except.ok archive_list) completion fails).1
      = archive_list.length ∧
    countEv isProgress
        (delete_inventory_run (Except.ok archive_list) completion fails).1
      = archive_list.length ∧
    countEv isLogError
        (delete_inventory_run (Except.ok archive_list) completion fails).1
        + (completion.filter fun a => !(fails a)).length
      = archive_list.length ∧
    (delete_inventory_run (Except.ok archive_list) completion fails).2
      = Except.ok () ∧
    (archive_list = [] →
      (delete_inventory_run (Except.ok archive_list) completion fails).1 = []) := by
  have hlen : completion.length = archive_list.length := by
    simpa [List.length_map] using h.length_eq
  refine ⟨?_, ?_, ?_, rfl, ?_⟩
  · show countEv isDeleteArchiveCall
        (delete_inventory_body archive_list completion fails)
      = archive_list.length
    rw [delete_inventory_body, countEv_append, countEv_map_deleteArchive,
      countEv_flatMap_deleteArchive_zero]
    omega
  · show countEv isProgress
        (delete_inventory_body archive_list completion fails)
      = archive_list.length
    rw [delete_inventory_body, countEv_append, countEv_map_progress_zero,
      countEv_flatMap_progress, hlen]
    omega
  · show countEv isLogError
        (delete_inventory_body archive_list completion fails)
        + (completion.filter fun a => !(fails a)).length = archive_list.length
    rw [delete_inventory_body, countEv_append, countEv_map_logError_zero,
      countEv_flatMap_logError]
    have hp := filter_not_add_filter completion fails
    omega
  · intro hnil
    subst hnil
    have hc : completion = [] := h.eq_nil
    subst hc
    rfl

/-- C1 amended witness: a two-archive run with one failing deletion. -/
theorem delete_inventory_calls_and_progress_witness :
    countEv isDeleteArchiveCall
        (delete_inventory_run (Except.ok [⟨"a1"⟩, ⟨"a2"⟩]) ["a2", "a1"]
          (fun aid => aid == "a2")).1 = 2 ∧
    countEv isProgress
        (delete_inventory_run (Except.ok [⟨"a1"⟩, ⟨"a2"⟩]) ["a2", "a1"]
          (fun aid => aid == "a2")).1 = 2 ∧
    countEv isLogError
        (delete_inventory_run (Except.ok [⟨"a1"⟩, ⟨"a2"⟩]) ["a2", "a1"]
          (fun aid => aid == "a2")).1
        + (["a2", "a1"].filter fun a => !(a == "a2")).length = 2 ∧
    (delete_inventory_run (Except.ok [⟨"a1"⟩, ⟨"a2"⟩]) ["a2", "a1"]
        (fun aid => aid == "a2")).2 = Except.ok () := by
  have h := delete_inventory_calls_and_progress [⟨"a1"⟩, ⟨"a2"⟩] ["a2", "a1"]
    (fun aid => aid == "a2") (by decide)
  exact ⟨h.1, h.2.1, h.2.2.1, h.2.2.2.1⟩

/-- C8: a failing per-archive delete is logged and counted, still produces
exactly one progress update, does not abort the batch (every archive is
still submitted and every future awaited), and delete_inventory never
re-raises it to its caller. -/
theorem delete_inventory_failure_isolated (archive_list : List Archive)
    (completion : List String) (fails : String → Bool)
    (h : List.Perm completion (archive_list.map fun a => a.archiveId)) :
    (delete_inventory_run (Except.ok archive_list) completion fails).2
      = Except.ok () ∧
    countEv isProgress
        (delete_inventory_run (Except.ok archive_list) completion fails).1
      = archive_list.length ∧
    countEv isLogError
        (delete_inventory_run (Except.ok archive_list) completion fails).1
      = (completion.filter fails).length ∧
    ∀ a ∈ archive_list, Ev.deleteArchiveCall a.archiveId
      ∈ (delete_inventory_run (Except.ok archive_list) completion fails).1 := by
  have hlen : completion.length = archive_list.length := by
    simpa [List.length_map] using h.length_eq
  refine ⟨rfl, ?_, ?_, ?_⟩
  · show countEv isProgress (delete_inventory_body archive_list completion fails)
      = archive_list.length
    rw [delete_inventory_body, countEv_append, countEv_map_progress_zero,
      countEv_flatMap_progress, hlen]
    omega
  · show countEv isLogError (delete_inventory_body archive_list completion fails)
      = (completion.filter fails).length
    rw [delete_inventory_body, countEv_append, countEv_map_logError_zero,
      countEv_flatMap_logError]
    omega
  · intro a ha
    show Ev.deleteArchiveCall a.archiveId
      ∈ delete_inventory_body archive_list completion fails
    exact List.mem_append_left _ (List.mem_map.mpr ⟨a, ha, rfl⟩)

/-- C8 witness: a three-archive run whose middle archive fails. -/
theorem delete_inventory_failure_isolated_witness :
    (delete_inventory_run (Except.ok [⟨"x"⟩, ⟨"y"⟩, ⟨"z"⟩]) ["z", "x", "y"]
        (fun aid => aid == "y")).2 = Except.ok () ∧
    countEv isProgress
        (delete_inventory_run (Except.ok [⟨"x"⟩, ⟨"y"⟩, ⟨"z"⟩]) ["z", "x", "y"]
          (fun aid => aid == "y")).1 = 3 ∧
    countEv isLogError
        (delete_inventory_run (Except.ok [⟨"x"⟩, ⟨"y"⟩, ⟨"z"⟩]) ["z", "x", "y"]
          (fun aid => aid == "y")).1 = 1 ∧
    Ev.deleteArchiveCall "y"
      ∈ (delete_inventory_run (Except.ok [⟨"x"⟩, ⟨"y"⟩, ⟨"z"⟩]) ["z", "x", "y"]
          (fun aid => aid == "y")).1 := by
  have h := delete_inventory_failure_isolated [⟨"x"⟩, ⟨"y"⟩, ⟨"z"⟩]
    ["z", "x", "y"] (fun aid => aid == "y") (by decide)
  exact ⟨h.1, h.2.1, h.2.2.1, h.2.2.2 ⟨"y"⟩ (by decide)⟩

/-- C10: wait_for_job with a None job id returns immediately: empty trace,
hence no describe_job call, no sleep, and no delete_inventory trigger. -/
theorem wait_for_job_none_immediate (describes : List DescribeResult)
    (jobOutput : Except GlacierError (List Archive)) (completion : List String)
    (fails : String → Bool) :
    wait_for_job_run none describes jobOutput completion fails
      = ([], WaitResult.done (Except.ok ())) ∧
    countEv isDescribe
        (wait_for_job_run none describes jobOutput completion fails).1 = 0 ∧
    countEv isSleep
        (wait_for_job_run none describes jobOutput completion fails).1 = 0 ∧
    Ev.deleteInventoryCall
      ∉ (wait_for_job_run none describes jobOutput completion fails).1 := by
  refine ⟨rfl, rfl, rfl, ?_⟩
  simp [wait_for_job_run]

/-- C6: against the status sequence InProgress, InProgress, Succeeded the
waiter polls exactly 3 times, sleeps the 60-second interval exactly twice
(elapsed at least 2 intervals), and triggers delete_inventory exactly once,
after the third poll. -/
theorem wait_for_job_three_polls :
    countEv isDescribe (wait_for_job_run (some "job")
      [DescribeResult.status "InProgress", DescribeResult.status "InProgress",
        DescribeResult.status "Succeeded"] (Except.ok []) []
      (fun _ => false)).1 = 3 ∧
    countEv isSleep (wait_for_job_run (some "job")
      [DescribeResult.status "InProgress", DescribeResult.status "InProgress",
        DescribeResult.status "Succeeded"] (Except.ok []) []
      (fun _ => false)).1 = 2 ∧
    sleepSeconds (wait_for_job_run (some "job")
      [DescribeResult.status "InProgress", DescribeResult.status "InProgress",
        DescribeResult.status "Succeeded"] (Except.ok []) []
      (fun _ => false)).1 = 120 ∧
    2 * 60 ≤ sleepSeconds (wait_for_job_run (some "job")
      [DescribeResult.status "InProgress", DescribeResult.status "InProgress",
        DescribeResult.status "Succeeded"] (Except.ok []) []
      (fun _ => false)).1 ∧
    countEv isDeleteInventory (wait_for_job_run (some "job")
      [DescribeResult.status "InProgress", DescribeResult.status "InProgress",
        DescribeResult.status "Succeeded"] (Except.ok []) []
      (fun _ => false)).1 = 1 ∧
    (wait_for_job_run (some "job")
      [DescribeResult.status "InProgress", DescribeResult.status "InProgress",
        DescribeResult.status "Succeeded"] (Except.ok []) []
      (fun _ => false)).1
      = [Ev.describeCall, Ev.sleepCall 60, Ev.describeCall, Ev.sleepCall 60,
          Ev.describeCall, Ev.deleteInventoryCall] := by
  decide

/-- C5 counterexample: lib.py constructs its ThreadPoolExecutor with the
default worker cap min(32, cpu_count + 4), so with 4 CPUs and 8 archives
up to 8 deletions can run concurrently, exceeding the claimed bound
min(cpu_count, archives) = 4. -/
theorem delete_inventory_parallelism_cex :
    ¬ (∀ (cpu_count n : Nat),
        pool_thread_bound (default_max_workers cpu_count) n ≤ min cpu_count n) := by
  intro h
  exact absurd (h 4 8) (by decide)

/-- C5 amended: the packaged lib bounds concurrent deletions by
min(min(32, cpu_count + 4), archives) — never more than the number of
archives, nor than cpu_count + 4, nor than 32 — while the legacy inquirer
variant, which passes max_workers = cpu_count, bounds them by
min(cpu_count, archives). -/
theorem delete_inventory_parallelism_bounds (cpu_count n : Nat) :
    pool_thread_bound (default_max_workers cpu_count) n ≤ n ∧
    pool_thread_bound (default_max_workers cpu_count) n ≤ cpu_count + 4 ∧
    pool_thread_bound (default_max_workers cpu_count) n ≤ 32 ∧
    pool_thread_bound (inquirer_max_workers cpu_count) n = min cpu_count n := by
  refine ⟨Nat.min_le_right _ _, ?_, ?_, rfl⟩ <;>
    simp [pool_thread_bound, default_max_workers]

/-- C9: the job-id scan of delete_vault is deterministic: it yields none
when no job is an incomplete inventory retrieval, and otherwise the first
such job in service-provided order, with no re-sorting. -/
theorem find_first_incomplete_inventory_spec (jobs pre post : List MJob)
    (j : MJob)
    (hnone : ∀ k ∈ jobs,
      ¬(k.action == JOB_ACTION_INVENTORY_RETRIEVAL && !k.completed) = true)
    (hpre : ∀ k ∈ pre,
      ¬(k.action == JOB_ACTION_INVENTORY_RETRIEVAL && !k.completed) = true)
    (hj : (j.action == JOB_ACTION_INVENTORY_RETRIEVAL && !j.completed) = true) :
    find_first_incomplete_inventory jobs = none ∧
    find_first_incomplete_inventory (pre ++ j :: post) = some j := by
  constructor
  · exact List.find?_eq_none.mpr hnone
  · induction pre with
    | nil => exact List.find?_cons_of_pos post hj
    | cons a t ih =>
      show List.find?
          (fun k => k.action == JOB_ACTION_INVENTORY_RETRIEVAL && !k.completed)
          (a :: (t ++ j :: post)) = some j
      rw [@List.find?_cons_of_neg MJob
        (fun k => k.action == JOB_ACTION_INVENTORY_RETRIEVAL && !k.completed)
        a (t ++ j :: post) (hpre a (List.mem_cons_self a t))]
      exact ih fun k hk => hpre k (List.mem_cons_of_mem a hk)

/-- C9 witness: among a completed inventory job, a non-inventory job and
two incomplete inventory jobs, the scan returns the first incomplete
inventory job in input order. -/
theorem find_first_incomplete_inventory_spec_witness :
    find_first_incomplete_inventory
        [⟨"j0", "InventoryRetrieval", true, "Succeeded"⟩] = none ∧
    find_first_incomplete_inventory
        ([⟨"j1", "ArchiveRetrieval", false, "InProgress"⟩]
          ++ ⟨"j2", "InventoryRetrieval", false, "InProgress"⟩ ::
            [⟨"j3", "InventoryRetrieval", false, "InProgress"⟩])
      = some ⟨"j2", "InventoryRetrieval", false, "InProgress"⟩ := by
  exact find_first_incomplete_inventory_spec
    [⟨"j0", "InventoryRetrieval", true, "Succeeded"⟩]
    [⟨"j1", "ArchiveRetrieval", false, "InProgress"⟩]
    [⟨"j3", "InventoryRetrieval", false, "InProgress"⟩]
    ⟨"j2", "InventoryRetrieval", false, "InProgress"⟩
    (by decide) (by decide) (by decide)

/-- C3 counterexample: a run whose single describe_job call raises a
ClientError ends the polling loop via the error branch and triggers no
deletion, yet wait_for_job returns normally — the transport error is only
logged, so the outcome is not surfaced to the caller, refuting the claim
as stated. -/
theorem wait_for_job_outcome_not_surfaced_cex :
    ¬ (∀ (jid : String) (describes : List DescribeResult)
        (jobOutput : Except GlacierError (List Archive))
        (completion : List String) (fails : String → Bool),
        ((wait_loop describes).2 = LoopExit.statusExit "Failed" ∨
          (wait_loop describes).2 = LoopExit.errorExit) →
        Ev.deleteInventoryCall
          ∉ (wait_for_job_run (some jid) describes jobOutput completion fails).1 ∧
        (wait_for_job_run (some jid) describes jobOutput completion fails).2
          ≠ WaitResult.done (Except.ok ())) := by
  intro h
  have h2 := h "job" [DescribeResult.clientError] (Except.ok []) []
    (fun _ => false) (Or.inr rfl)
  exact h2.2 rfl

/-- C3 amended: a run of wait_for_job whose polling ends in a terminal
Failed status or in a ClientError while describing the job terminates the
loop without triggering delete_inventory and returns normally to its
caller; the transport error is recorded in the log but not propagated, and
a Failed status is not reported at all. -/
theorem wait_for_job_failure_no_deletion (jid : String)
    (describes : List DescribeResult)
    (jobOutput : Except GlacierError (List Archive)) (completion : List String)
    (fails : String → Bool)
    (h : (wait_loop describes).2 = LoopExit.statusExit "Failed" ∨
      (wait_loop describes).2 = LoopExit.errorExit) :
    Ev.deleteInventoryCall
      ∉ (wait_for_job_run (some jid) describes jobOutput completion fails).1 ∧
    (wait_for_job_run (some jid) describes jobOutput completion fails).2
      = WaitResult.done (Except.ok ()) ∧
    ((wait_loop describes).2 = LoopExit.errorExit →
      Ev.logError
        ∈ (wait_for_job_run (some jid) describes jobOutput completion fails).1) := by
  cases h with
  | inl h =>
    simp only [wait_for_job_run, h]
    have hne : ("Failed" = JOB_STATUS_SUCCEEDED) = False := by
      simp [JOB_STATUS_SUCCEEDED]
    refine ⟨?_, ?_, ?_⟩
    · simp [hne, wait_loop_no_delete describes]
    · simp [hne]
    · intro habs
      exact absurd habs (by simp)
  | inr h =>
    simp only [wait_for_job_run, h]
    exact ⟨wait_loop_no_delete describes, trivial,
      fun _ => wait_loop_error_logged describes h⟩

/-- C3 amended witness: a waiter run against the single status Failed. -/
theorem wait_for_job_failure_no_deletion_witness :
    Ev.deleteInventoryCall
      ∉ (wait_for_job_run (some "job") [DescribeResult.status "Failed"]
          (Except.ok []) [] (fun _ => false)).1 ∧
    (wait_for_job_run (some "job") [DescribeResult.status "Failed"]
        (Except.ok []) [] (fun _ => false)).2
      = WaitResult.done (Except.ok ()) := by
  have h := wait_for_job_failure_no_deletion "job" [DescribeResult.status "Failed"]
    (Except.ok []) [] (fun _ => false) (Or.inl (by decide))
  exact ⟨h.1, h.2.1⟩

/-- C4 counterexample: with two watched jobs, a second snapshot holding the
same two tagged job records in swapped order is a permutation of the first
(equal as a set), yet monitor_jobs terminates on it as changed: the
comparison is order-sensitive Python list equality, refuting the
order-ignoring set comparison the claim states. -/
theorem monitor_jobs_order_sensitive_cex :
    List.Perm
      (incomplete_inventory_jobs
        [("v", [⟨"jobA", "InventoryRetrieval", false, "InProgress"⟩]),
          ("w", [⟨"jobB", "InventoryRetrieval", false, "InProgress"⟩])])
      (incomplete_inventory_jobs
        [("w", [⟨"jobB", "InventoryRetrieval", false, "InProgress"⟩]),
          ("v", [⟨"jobA", "InventoryRetrieval", false, "InProgress"⟩])]) ∧
    incomplete_inventory_jobs
        [("v", [⟨"jobA", "InventoryRetrieval", false, "InProgress"⟩]),
          ("w", [⟨"jobB", "InventoryRetrieval", false, "InProgress"⟩])]
      ≠ incomplete_inventory_jobs
        [("w", [⟨"jobB", "InventoryRetrieval", false, "InProgress"⟩]),
          ("v", [⟨"jobA", "InventoryRetrieval", false, "InProgress"⟩])] ∧
    monitor_jobs_run
        [("v", [⟨"jobA", "InventoryRetrieval", false, "InProgress"⟩]),
          ("w", [⟨"jobB", "InventoryRetrieval", false, "InProgress"⟩])]
        [[("w", [⟨"jobB", "InventoryRetrieval", false, "InProgress"⟩]),
          ("v", [⟨"jobA", "InventoryRetrieval", false, "InProgress"⟩])]]
      = (1, MonExit.changed
          [⟨"w", ⟨"jobB", "InventoryRetrieval", false, "InProgress"⟩⟩,
            ⟨"v", ⟨"jobA", "InventoryRetrieval", false, "InProgress"⟩⟩]) := by
  decide

/-- C4 amended: monitor_jobs compares successive snapshots with
order-sensitive structural list equality in service-traversal order (any
field difference or reordering counts as a change): it keeps looping while
the new snapshot is list-equal to the previous one, terminates the first
iteration the lists differ, and exits immediately without looping if the
very first snapshot is empty. -/
theorem monitor_jobs_list_equality (initial : List (String × List MJob))
    (rounds pre rest : List (List (String × List MJob)))
    (r : List (String × List MJob)) (L : List TaggedJob)
    (hempty : incomplete_inventory_jobs initial = [])
    (hpre : ∀ q ∈ pre, incomplete_inventory_jobs q = L)
    (hr : incomplete_inventory_jobs r ≠ L)
    (hall : ∀ q ∈ rounds, incomplete_inventory_jobs q = L) :
    monitor_jobs_run initial rounds = (0, MonExit.emptyStart) ∧
    monitor_loop L (pre ++ r :: rest)
      = (pre.length + 1, MonExit.changed (incomplete_inventory_jobs r)) ∧
    monitor_loop L rounds = (rounds.length, MonExit.exhausted L) := by
  refine ⟨?_, ?_, ?_⟩
  · simp [monitor_jobs_run, initial_jobs_last, hempty]
  · induction pre with
    | nil => simp [monitor_loop, hr]
    | cons q t ih =>
      have hq : incomplete_inventory_jobs q = L := hpre q (List.mem_cons_self q t)
      have ht := ih fun k hk => hpre k (List.mem_cons_of_mem q hk)
      simp [monitor_loop, hq, ht]
  · induction rounds with
    | nil => simp [monitor_loop]
    | cons q t ih =>
      have hq : incomplete_inventory_jobs q = L := hall q (List.mem_cons_self q t)
      have ht := ih fun k hk => hall k (List.mem_cons_of_mem q hk)
      simp [monitor_loop, hq, ht]

/-- C4 amended witness: an empty account exits at once; a first snapshot
differing from the seed terminates on iteration one; a round list whose
snapshots all equal the seed is exhausted without a change. -/
theorem monitor_jobs_list_equality_witness :
    monitor_jobs_run ([] : List (String × List MJob)) [] = (0, MonExit.emptyStart) ∧
    monitor_loop [] ([] ++ [("v", [⟨"jobA", "InventoryRetrieval", false, "InProgress"⟩])] :: [])
      = (0 + 1, MonExit.changed (incomplete_inventory_jobs
          [("v", [⟨"jobA", "InventoryRetrieval", false, "InProgress"⟩])])) ∧
    monitor_loop ([] : List TaggedJob) [] = (0, MonExit.exhausted []) := by
  have h := monitor_jobs_list_equality [] [] [] []
    [("v", [⟨"jobA", "InventoryRetrieval", false, "InProgress"⟩])] []
    (by decide) (by simp) (by decide) (by simp)
  exact ⟨h.1, by simpa using h.2.1, h.2.2⟩

/-- C2: when the delete-vault call fails with the classified
InvalidParameterValueException, delete_vault ends with a logged warning as
its last event, raises nothing, and makes no service call after the delete
call; any other ClientError is propagated to the caller. -/
theorem delete_vault_classifies_delete_failure
    (jobsResult : Except GlacierError (Option (List MJob)))
    (describes : List DescribeResult)
    (jobOutput : Except GlacierError (List Archive)) (completion : List String)
    (fails : String → Bool) (m : String)
    (h : ∀ jobs, jobsResult = Except.ok jobs →
      (wait_for_job_run ((find_first_incomplete_inventory (jobs.getD [])).map
          fun j => j.jobId) describes jobOutput completion fails).2
        ≠ WaitResult.diverged) :
    (delete_vault_run jobsResult describes jobOutput completion fails
        (some DeleteVaultError.invalidParameterValue)).2
      = VaultResult.done (Except.ok ()) ∧
    (∃ t, (delete_vault_run jobsResult describes jobOutput completion fails
        (some DeleteVaultError.invalidParameterValue)).1
      = t ++ [Ev.deleteVaultCall, Ev.logWarning]) ∧
    (delete_vault_run jobsResult describes jobOutput completion fails
        (some (DeleteVaultError.clientError m))).2
      = VaultResult.done (Except.error (DeleteVaultError.clientError m)) := by
  obtain ⟨t₁, ht₁, hr₁⟩ := delete_vault_run_reaches_finish jobsResult describes
    jobOutput completion fails (some DeleteVaultError.invalidParameterValue) h
  obtain ⟨t₂, ht₂, hr₂⟩ := delete_vault_run_reaches_finish jobsResult describes
    jobOutput completion fails (some (DeleteVaultError.clientError m)) h
  exact ⟨hr₁, ⟨t₁, ht₁⟩, hr₂⟩

/-- C2 witness: a vault with no incomplete inventory job. -/
theorem delete_vault_classifies_delete_failure_witness :
    (delete_vault_run (Except.ok none) [] (Except.ok []) [] (fun _ => false)
        (some DeleteVaultError.invalidParameterValue)).2
      = VaultResult.done (Except.ok ()) ∧
    (delete_vault_run (Except.ok none) [] (Except.ok []) [] (fun _ => false)
        (some (DeleteVaultError.clientError "AccessDenied"))).2
      = VaultResult.done
          (Except.error (DeleteVaultError.clientError "AccessDenied")) := by
  have h := delete_vault_classifies_delete_failure (Except.ok none) []
    (Except.ok []) [] (fun _ => false) "AccessDenied"
    (by intro jobs hj; cases hj; exact fun hc => WaitResult.noConfusion hc)
  exact ⟨h.1, h.2.2⟩

/-- C7: a failure in the advisory job-check-and-wait step of delete_vault —
whether get_jobs raises or the wait step (via delete_inventory) raises — is
logged as a warning and swallowed, and the vault delete call is still
issued afterwards, with the overall outcome exactly that of the terminal
delete step. -/
theorem delete_vault_jobcheck_fail_open (describes : List DescribeResult)
    (jobOutput : Except GlacierError (List Archive)) (completion : List String)
    (fails : String → Bool) (delResult : Option DeleteVaultError)
    (e : GlacierError) (jobs : Option (List MJob)) (err : GlacierError)
    (hw : (wait_for_job_run ((find_first_incomplete_inventory (jobs.getD [])).map
        fun j => j.jobId) describes jobOutput completion fails).2
      = WaitResult.done (Except.error err)) :
    (delete_vault_run (Except.error e) describes jobOutput completion fails
        delResult).1
      = Ev.getJobsCall :: Ev.logWarning :: (delete_vault_finish delResult).1 ∧
    (delete_vault_run (Except.error e) describes jobOutput completion fails
        delResult).2 = VaultResult.done (delete_vault_finish delResult).2 ∧
    Ev.logWarning ∈ (delete_vault_run (Except.ok jobs) describes jobOutput
        completion fails delResult).1 ∧
    Ev.deleteVaultCall ∈ (delete_vault_run (Except.ok jobs) describes jobOutput
        completion fails delResult).1 ∧
    (delete_vault_run (Except.ok jobs) describes jobOutput completion fails
        delResult).2 = VaultResult.done (delete_vault_finish delResult).2 := by
  refine ⟨rfl, rfl, ?_, ?_, ?_⟩ <;>
    simp [delete_vault_run, hw, deleteVaultCall_mem_finish]

/-- C7 witness: a vault whose incomplete inventory job succeeds but whose
inventory download then raises, and a successful delete call. -/
theorem delete_vault_jobcheck_fail_open_witness :
    (delete_vault_run (Except.error ⟨"Throttled"⟩) [DescribeResult.status "Succeeded"]
        (Except.error ⟨"NoSuchJob"⟩) [] (fun _ => false) none).1
      = Ev.getJobsCall :: Ev.logWarning :: (delete_vault_finish none).1 ∧
    Ev.logWarning ∈ (delete_vault_run
        (Except.ok (some [⟨"j1", "InventoryRetrieval", false, "InProgress"⟩]))
        [DescribeResult.status "Succeeded"] (Except.error ⟨"NoSuchJob"⟩) []
        (fun _ => false) none).1 ∧
    Ev.deleteVaultCall ∈ (delete_vault_run
        (Except.ok (some [⟨"j1", "InventoryRetrieval", false, "InProgress"⟩]))
        [DescribeResult.status "Succeeded"] (Except.error ⟨"NoSuchJob"⟩) []
        (fun _ => false) none).1 ∧
    (delete_vault_run
        (Except.ok (some [⟨"j1", "InventoryRetrieval", false, "InProgress"⟩]))
        [DescribeResult.status "Succeeded"] (Except.error ⟨"NoSuchJob"⟩) []
        (fun _ => false) none).2
      = VaultResult.done (delete_vault_finish none).2 := by
  have h := delete_vault_jobcheck_fail_open [DescribeResult.status "Succeeded"]
    (Except.error ⟨"NoSuchJob"⟩) [] (fun _ => false) none ⟨"Throttled"⟩
    (some [⟨"j1", "InventoryRetrieval", false, "InProgress"⟩]) ⟨"NoSuchJob"⟩
    rfl
  exact ⟨h.1, h.2.2.1, h.2.2.2.1, h.2.2.2.2⟩

end GlacierPy
